import Mathlib

/-!
# Verification of the consumption / demand-plan dashboards

Shallow embedding of the two pieces of business logic of the repository:

* `GrowthSeriesCalculator` — the windowed SQL query of `src/app.py`
  (`historical_sql`, lines 176-224) and `src/consumption_app_notebook.py`
  (`sql`, lines 90-155): `LAG` over `PARTITION BY account_id ORDER BY
  usage_date`, the `mom_growth_pct` CASE guard, the `dbu_dollars > 0`
  filter, the optional minimum-growth filter, `ORDER BY account_name,
  usage_date DESC` and `LIMIT`.
* `ForecastBucketProjector` — the forecast-scenario loop of
  `src/databricks_dashboard/app.py` (lines 188-224) together with
  `year_bucket` (lines 47-53): month enumeration, `Yr{n}` bucketing,
  per-bucket growth-rate lookup with its fallbacks, and the running
  `compound` multiplier.

Python / SQL numbers are modelled as `Rat`; Python `datetime.date` as a
`year/month/day` record ordered lexicographically.
-/

namespace DemandPlan

/-- A calendar date as in Python `datetime.date`: compared
lexicographically on `(year, month, day)`. -/
@[ext]
structure Date where
  year : Int
  month : Int
  day : Int
deriving DecidableEq, Repr

instance : LT Date :=
  ⟨fun a b => a.year < b.year ∨ (a.year = b.year ∧
    (a.month < b.month ∨ (a.month = b.month ∧ a.day < b.day)))⟩

instance (a b : Date) : Decidable (a < b) :=
  inferInstanceAs (Decidable (a.year < b.year ∨ (a.year = b.year ∧
    (a.month < b.month ∨ (a.month = b.month ∧ a.day < b.day)))))

instance : LE Date := ⟨fun a b => a < b ∨ a = b⟩

instance (a b : Date) : Decidable (a ≤ b) :=
  inferInstanceAs (Decidable (a < b ∨ a = b))

theorem Date.lt_def (a b : Date) :
    a < b ↔ (a.year < b.year ∨ (a.year = b.year ∧
      (a.month < b.month ∨ (a.month = b.month ∧ a.day < b.day)))) := Iff.rfl

theorem Date.le_def (a b : Date) : a ≤ b ↔ (a < b ∨ a = b) := Iff.rfl

/-- Absolute month number of a date: `year * 12 + (month - 1)`. -/
def monthIndex (d : Date) : Int := d.year * 12 + d.month - 1

/-- The first-of-month date of a given absolute month number. -/
def ofMonthIndex (i : Int) : Date := ⟨i.fdiv 12, i.fmod 12 + 1, 1⟩

/-- Truncate a date to the first of its month: `date(d.year, d.month, 1)`. -/
def floorMonth (d : Date) : Date := ⟨d.year, d.month, 1⟩

/-- Python banker's rounding (`round`): round half to even. -/
def roundHalfEven (x : Rat) : Int :=
  let f := ⌊x⌋
  if x - f < 1/2 then f
  else if 1/2 < x - f then f + 1
  else if f % 2 = 0 then f else f + 1

/-- Python `round(x, 2)`. -/
def round2 (x : Rat) : Rat := (roundHalfEven (x * 100) : Rat) / 100

/-- Spark SQL `ROUND` (HALF_UP: ties away from zero). -/
def roundHalfUp (x : Rat) : Int := if 0 ≤ x then ⌊x + 1/2⌋ else -⌊-x + 1/2⌋

/-- Spark SQL `ROUND(x, 2)`. -/
def roundSql2 (x : Rat) : Rat := (roundHalfUp (x * 100) : Rat) / 100

/-! ## ForecastBucketProjector (`src/databricks_dashboard/app.py`) -/

/-- Month difference `(month_date.year - forecast_start.year) * 12 +
(month_date.month - forecast_start.month)` — app.py line 51. -/
def deltaMonths (forecast_start month_date : Date) : Int :=
  (month_date.year - forecast_start.year) * 12 +
    (month_date.month - forecast_start.month)

/-- Bucket number `(delta_months // 12) + 1` — app.py line 52 (Python `//`
is floor division, hence `Int.fdiv`). -/
def yearNum (forecast_start month_date : Date) : Int :=
  (deltaMonths forecast_start month_date).fdiv 12 + 1

/-- Function `year_bucket` of app.py lines 47-53. -/
def year_bucket (forecast_start month_date : Date) : String :=
  if month_date < forecast_start then "Historical"
  else "Yr" ++ toString (yearNum forecast_start month_date)

/-- The body of the `while d <= end` month-enumeration loop of app.py
lines 191-193 (`d = d + relativedelta(months=1)` is `+ 1` on absolute
month numbers); structurally recursive on an iteration bound. -/
def monthRangeAux : Nat → Int → Int → List Int
  | 0, _, _ => []
  | fuel + 1, d, e => if d ≤ e then d :: monthRangeAux fuel (d + 1) e else []

/-- The `while d <= end` loop, run with exactly enough iterations to
reach its exit condition. -/
def monthRange (d e : Int) : List Int := monthRangeAux (e + 1 - d).toNat d e

/-- The forecast month list of app.py lines 188-193: first-of-month dates
from `date(start.year, start.month, 1)` to `date(end.year, end.month, 1)`. -/
def forecast_months (forecast_start forecast_end : Date) : List Date :=
  (monthRange (monthIndex (floorMonth forecast_start))
    (monthIndex (floorMonth forecast_end))).map ofMonthIndex

/-- One row of the forecast table built at app.py lines 219-224. -/
structure ForecastRow where
  month : Date
  year_bucket : String
  organic_growth_pct : Rat
  projected_usage_dollars : Rat
deriving DecidableEq, Repr

namespace ForecastBucketProjector

/-- Rate applied to a bucket, with its double fallback:
`growth_by_yr.get(yr_num, growth_by_yr.get(3, 0.05))` — app.py line 214. -/
def rateForBucket (growth_by_yr : List (Int × Rat)) (yr_num : Int) : Rat :=
  (growth_by_yr.lookup yr_num).getD ((growth_by_yr.lookup 3).getD (1/20))

/-- The `for i, month_start in enumerate(forecast_months)` loop of app.py
lines 209-224.  `year_bucket` is recomputed per month; a `"Historical"`
bucket is skipped (`continue`) before the `compound` update; the source
recovers the bucket number with `int(bucket.replace("Yr", ""))`, which on
a `"Yr{n}"` label is exactly `yearNum`. -/
def projectLoop (forecast_start : Date) (baseline_dollars : Rat)
    (growth_by_yr : List (Int × Rat)) :
    List Date → Nat → Rat → List ForecastRow
  | [], _, _ => []
  | month_start :: ms, i, compound =>
    let bucket := year_bucket forecast_start month_start
    if bucket = "Historical" then
      projectLoop forecast_start baseline_dollars growth_by_yr ms (i + 1) compound
    else
      let yr_num := yearNum forecast_start month_start
      let growth_pct := rateForBucket growth_by_yr yr_num
      -- app.py lines 216-217: `if i % 12 == 0 and yr_num > 1:
      --   compound *= 1.0 + growth_by_yr.get(yr_num - 1, 0.05)`
      let compound' :=
        if i % 12 = 0 ∧ 1 < yr_num then
          compound * (1 + (growth_by_yr.lookup (yr_num - 1)).getD (1/20))
        else compound
      { month := month_start
        year_bucket := bucket
        organic_growth_pct := round2 (growth_pct * 100)
        projected_usage_dollars :=
          round2 (baseline_dollars * compound' * (1 + growth_pct)) } ::
        projectLoop forecast_start baseline_dollars growth_by_yr ms (i + 1) compound'

/-- The forecast computation of app.py lines 196-224: the zero-baseline
placeholder substitution (lines 202-203) followed by the projection loop
(`compound` initialised to `1.0`, `enumerate` starting at `0`). -/
def project (forecast_start forecast_end : Date) (baseline_amount : Rat)
    (growth_by_yr : List (Int × Rat)) : List ForecastRow :=
  let baseline_dollars := if baseline_amount = 0 then 1 else baseline_amount
  projectLoop forecast_start baseline_dollars growth_by_yr
    (forecast_months forecast_start forecast_end) 0 1

end ForecastBucketProjector

/-! ## GrowthSeriesCalculator (`src/app.py` / `src/consumption_app_notebook.py`) -/

/-- One input row of `c360_consumption_account_monthly` as read by the
historical query (the columns it references). -/
structure ConsumptionFact where
  account_id : String
  account_name : String
  usage_date : Date
  dbu_dollars : Rat
  organic_growth_baseline : Rat
  forecast_consumption_ds : Rat
  submitted_ae_forecast : Rat
  business_unit : String
  BU1 : String
deriving DecidableEq, Repr

/-- One row of the `historical_consumption` CTE (app.py lines 177-204):
the input columns plus the two window-function columns. -/
structure HistRow where
  account_id : String
  account_name : String
  usage_date : Date
  dbu_dollars : Rat
  organic_growth_baseline : Rat
  forecast_consumption_ds : Rat
  submitted_ae_forecast : Rat
  business_unit : String
  BU1 : String
  prev_month_dbu_dollars : Option Rat
  mom_growth_pct : Option Rat
deriving DecidableEq, Repr

/-- One row of the final SELECT (app.py lines 205-215): `account_id` is
projected away and the numeric columns are rounded. -/
structure GrowthRow where
  account_name : String
  usage_date : Date
  dbu_dollars : Rat
  prev_month_dbu_dollars : Option Rat
  mom_growth_pct : Option Rat
  organic_growth_baseline : Rat
  forecast_consumption_ds : Rat
  submitted_ae_forecast : Rat
  business_unit : String
  BU1 : String
deriving DecidableEq, Repr

namespace GrowthSeriesCalculator

/-- Window value `LAG(dbu_dollars, 1) OVER (PARTITION BY account_id ORDER
BY usage_date)` — app.py lines 188-191: the `dbu_dollars` of the latest
strictly earlier row of the same account (deterministic under the data
model's one-row-per-(account, month) invariant). -/
def lagDollars (facts : List ConsumptionFact) (f : ConsumptionFact) : Option Rat :=
  ((facts.filter (fun g =>
      decide (g.account_id = f.account_id ∧ g.usage_date < f.usage_date))).foldl
    (fun acc g =>
      match acc with
      | none => some g
      | some h => if h.usage_date < g.usage_date then some g else some h)
    none).map (·.dbu_dollars)

/-- The `mom_growth_pct` CASE expression — app.py lines 192-199: the
growth formula is evaluated only when the lagged value is `> 0`, else
NULL. -/
def mom_growth_pct (dbu_dollars : Rat) (prev : Option Rat) : Option Rat :=
  match prev with
  | some p => if 0 < p then some ((dbu_dollars - p) / p * 100) else none
  | none => none

/-- The `historical_consumption` CTE — app.py lines 177-204 — over an
already-fetched list of facts (the `account_name ILIKE` / date-range
predicates are the external data-fetch collaborator's filters). -/
def historical_consumption (facts : List ConsumptionFact) : List HistRow :=
  facts.map (fun f =>
    let prev := lagDollars facts f
    { account_id := f.account_id
      account_name := f.account_name
      usage_date := f.usage_date
      dbu_dollars := f.dbu_dollars
      organic_growth_baseline := f.organic_growth_baseline
      forecast_consumption_ds := f.forecast_consumption_ds
      submitted_ae_forecast := f.submitted_ae_forecast
      business_unit := f.business_unit
      BU1 := f.BU1
      prev_month_dbu_dollars := prev
      mom_growth_pct := mom_growth_pct f.dbu_dollars prev })

/-- The outer WHERE clause — app.py lines 217-220: `dbu_dollars > 0`,
plus (when a minimum is supplied) `mom_growth_pct IS NULL OR
mom_growth_pct >= min`. -/
def passesWhere (min_growth : Option Rat) (r : HistRow) : Bool :=
  decide (0 < r.dbu_dollars) &&
    (match min_growth with
     | none => true
     | some g =>
       match r.mom_growth_pct with
       | none => true
       | some v => decide (g ≤ v))

/-- Sort order `ORDER BY account_name, usage_date DESC` — app.py line 222
— on CTE rows. -/
def histOrder (a b : HistRow) : Prop :=
  a.account_name < b.account_name ∨
    (a.account_name = b.account_name ∧ b.usage_date ≤ a.usage_date)

instance : DecidableRel histOrder := fun a b =>
  inferInstanceAs (Decidable (a.account_name < b.account_name ∨
    (a.account_name = b.account_name ∧ b.usage_date ≤ a.usage_date)))

instance : IsTotal HistRow histOrder :=
  ⟨fun a b => by
    rcases lt_trichotomy a.account_name b.account_name with h | h | h
    · exact Or.inl (Or.inl h)
    · have hd : b.usage_date ≤ a.usage_date ∨ a.usage_date ≤ b.usage_date := by
        simp only [Date.le_def, Date.lt_def, Date.ext_iff]
        omega
      rcases hd with hd | hd
      · exact Or.inl (Or.inr ⟨h, hd⟩)
      · exact Or.inr (Or.inr ⟨h.symm, hd⟩)
    · exact Or.inr (Or.inl h)⟩

instance : IsTrans HistRow histOrder :=
  ⟨fun a b c hab hbc => by
    rcases hab with h1 | ⟨h1, hd1⟩ <;> rcases hbc with h2 | ⟨h2, hd2⟩
    · exact Or.inl (lt_trans h1 h2)
    · exact Or.inl (h2 ▸ h1)
    · exact Or.inl (h1 ▸ h2)
    · refine Or.inr ⟨h1.trans h2, ?_⟩
      revert hd1 hd2
      simp only [Date.le_def, Date.lt_def, Date.ext_iff]
      omega⟩

/-- The full query pipeline up to (and including) `LIMIT` — app.py lines
216-224: filter, sort, truncate. -/
def historicalRows (facts : List ConsumptionFact) (min_growth : Option Rat)
    (result_limit : Nat) : List HistRow :=
  (((historical_consumption facts).filter (passesWhere min_growth)).insertionSort
    histOrder).take result_limit

/-- The final SELECT's projection — app.py lines 205-215: drop
`account_id`, `ROUND(..., 2)` the numeric columns. -/
def selectRow (r : HistRow) : GrowthRow :=
  { account_name := r.account_name
    usage_date := r.usage_date
    dbu_dollars := roundSql2 r.dbu_dollars
    prev_month_dbu_dollars := r.prev_month_dbu_dollars.map roundSql2
    mom_growth_pct := r.mom_growth_pct.map roundSql2
    organic_growth_baseline := roundSql2 r.organic_growth_baseline
    forecast_consumption_ds := roundSql2 r.forecast_consumption_ds
    submitted_ae_forecast := roundSql2 r.submitted_ae_forecast
    business_unit := r.business_unit
    BU1 := r.BU1 }

/-- The whole historical query. -/
def compute (facts : List ConsumptionFact) (min_growth : Option Rat)
    (result_limit : Nat) : List GrowthRow :=
  (historicalRows facts min_growth result_limit).map selectRow

end GrowthSeriesCalculator

/-- Decimal value of a digit string (most significant first). -/
def digitsToNat (l : List Char) : Nat :=
  l.foldl (fun n c => n * 10 + (c.toNat - 48)) 0

/-- Python `int(s)` on a stripped string: an optional leading `-`
followed by one or more digits; `none` models the `ValueError` raise. -/
def parseInt? (s : String) : Option Int :=
  match s.data with
  | [] => none
  | '-' :: rest =>
    if rest ≠ [] ∧ rest.all (·.isDigit) then some (-(digitsToNat rest : Int))
    else none
  | l => if l.all (·.isDigit) then some ((digitsToNat l : Int)) else none

/-- Resolution of `result_limit` in `src/consumption_app_notebook.py` lines
57-61: `max(1, min(10000, int(s)))` with the `ValueError` handler falling
back to `500`. -/
def resolve_result_limit (result_limit_str : String) : Int :=
  match parseInt? result_limit_str with
  | some n => max 1 (min 10000 n)
  | none => 500

/-! ## Specification-side derived definitions (used only in statements and
proofs, all defined in terms of the embedded source functions). -/

/-- The value of the running `compound` multiplier while a month of year
bucket `m + 1` is processed: one factor `1 + growth_by_yr.get(k, 0.05)`
per completed year `k = 1, …, m` (app.py line 217). -/
def compoundProd (growth_by_yr : List (Int × Rat)) : Nat → Rat
  | 0 => 1
  | m + 1 => compoundProd growth_by_yr m *
      (1 + (growth_by_yr.lookup ((m : Int) + 1)).getD (1/20))

/-- Closed form of the forecast row emitted for the month `i` months
after `floorMonth forecast_start`. -/
def rowAt (forecast_start : Date) (baseline_dollars : Rat)
    (growth_by_yr : List (Int × Rat)) (i : Nat) : ForecastRow :=
  { month := ofMonthIndex (monthIndex (floorMonth forecast_start) + i)
    year_bucket := "Yr" ++ toString ((i / 12 : Nat) + 1 : Int)
    organic_growth_pct :=
      round2 (ForecastBucketProjector.rateForBucket growth_by_yr ((i / 12 : Nat) + 1 : Int) * 100)
    projected_usage_dollars :=
      round2 (baseline_dollars * compoundProd growth_by_yr (i / 12) *
        (1 + ForecastBucketProjector.rateForBucket growth_by_yr ((i / 12 : Nat) + 1 : Int))) }

/-- Number of enumerated forecast months. -/
def monthCount (forecast_start forecast_end : Date) : Nat :=
  (monthIndex (floorMonth forecast_end) + 1 - monthIndex (floorMonth forecast_start)).toNat

/-- Decimal digit characters of a natural number, most significant
first. -/
def decDigits (n : Nat) : List Char :=
  if _h : n < 10 then [Nat.digitChar n]
  else decDigits (n / 10) ++ [Nat.digitChar (n % 10)]
decreasing_by exact Nat.div_lt_self (by omega) (by omega)

/-- Decode a decimal digit string back to the number it denotes. -/
def decOfDigits (l : List Char) : Nat :=
  l.foldl (fun a c => 10 * a + (c.toNat - 48)) 0

end DemandPlan

/-! ## Proofs -/

namespace DemandPlan

/-! ### Month arithmetic -/

theorem monthIndex_ofMonthIndex (i : Int) : monthIndex (ofMonthIndex i) = i := by
  have h := Int.fdiv_add_fmod i 12
  simp only [monthIndex, ofMonthIndex]
  omega

theorem ofMonthIndex_month_bounds (i : Int) :
    1 ≤ (ofMonthIndex i).month ∧ (ofMonthIndex i).month ≤ 12 := by
  have h := Int.fdiv_add_fmod i 12
  have h1 : i.fmod 12 = i % 12 := Int.fmod_eq_emod i (by omega)
  simp only [ofMonthIndex]
  omega

theorem ofMonthIndex_day (i : Int) : (ofMonthIndex i).day = 1 := rfl

theorem ofMonthIndex_lt_iff (i j : Int) :
    ofMonthIndex i < ofMonthIndex j ↔ i < j := by
  have hi := Int.fdiv_add_fmod i 12
  have hj := Int.fdiv_add_fmod j 12
  have hi1 : i.fmod 12 = i % 12 := Int.fmod_eq_emod i (by omega)
  have hj1 : j.fmod 12 = j % 12 := Int.fmod_eq_emod j (by omega)
  simp only [ofMonthIndex, Date.lt_def]
  omega

theorem ofMonthIndex_monthIndex_of_valid (d : Date) (h1 : 1 ≤ d.month)
    (h2 : d.month ≤ 12) (h3 : d.day = 1) : ofMonthIndex (monthIndex d) = d := by
  have h := Int.fdiv_add_fmod (monthIndex d) 12
  have h4 : (monthIndex d).fmod 12 = (monthIndex d) % 12 :=
    Int.fmod_eq_emod _ (by omega)
  simp only [monthIndex] at h h4
  ext <;> simp only [ofMonthIndex, monthIndex] <;> omega

end DemandPlan

namespace DemandPlan

/-! ### Injectivity of the decimal `toString` used in `"Yr{n}"` labels -/

theorem toDigitsCore_eq_decDigits :
    ∀ (fuel n : Nat) (acc : List Char), n < fuel →
      Nat.toDigitsCore 10 fuel n acc = decDigits n ++ acc := by
  intro fuel
  induction fuel with
  | zero => intro n acc h; omega
  | succ f ih =>
    intro n acc h
    by_cases h10 : n < 10
    · have hd : n / 10 = 0 := Nat.div_eq_of_lt h10
      rw [decDigits]
      simp [Nat.toDigitsCore, hd, h10, Nat.mod_eq_of_lt h10]
    · have hd : n / 10 ≠ 0 := by
        have : 10 / 10 ≤ n / 10 := Nat.div_le_div_right (by omega)
        simp at this; omega
      have hlt : n / 10 < f := by
        have := Nat.div_lt_self (by omega : 0 < n) (by omega : 1 < 10)
        omega
      rw [decDigits]
      simp only [Nat.toDigitsCore, hd, if_false, dif_neg h10]
      rw [ih (n / 10) _ hlt, List.append_assoc]
      rfl

theorem decVal_digitChar (k : Nat) (h : k < 10) :
    (Nat.digitChar k).toNat - 48 = k := by
  interval_cases k <;> rfl

theorem decOfDigits_append_singleton (l : List Char) (c : Char) :
    decOfDigits (l ++ [c]) = 10 * decOfDigits l + (c.toNat - 48) := by
  simp [decOfDigits, List.foldl_append]

theorem decOfDigits_decDigits (n : Nat) : decOfDigits (decDigits n) = n := by
  induction n using Nat.strong_induction_on with
  | _ n ih =>
    rw [decDigits]
    by_cases h10 : n < 10
    · simp [decOfDigits, h10, decVal_digitChar n h10]
    · have hlt : n / 10 < n := Nat.div_lt_self (by omega) (by omega)
      rw [dif_neg h10, decOfDigits_append_singleton, ih _ hlt,
        decVal_digitChar _ (Nat.mod_lt _ (by omega))]
      omega

theorem decDigits_inj {m n : Nat} (h : decDigits m = decDigits n) : m = n := by
  have h2 := congrArg decOfDigits h
  rwa [decOfDigits_decDigits, decOfDigits_decDigits] at h2

theorem nat_repr_inj {m n : Nat} (h : Nat.repr m = Nat.repr n) : m = n := by
  apply decDigits_inj
  have hm : Nat.repr m = (decDigits m).asString := by
    show (Nat.toDigits 10 m).asString = _
    rw [Nat.toDigits, toDigitsCore_eq_decDigits (m + 1) m [] (by omega),
      List.append_nil]
  have hn : Nat.repr n = (decDigits n).asString := by
    show (Nat.toDigits 10 n).asString = _
    rw [Nat.toDigits, toDigitsCore_eq_decDigits (n + 1) n [] (by omega),
      List.append_nil]
  rw [hm, hn] at h
  exact congrArg String.data h

theorem toString_int_ofNat (n : Nat) : toString (n : Int) = Nat.repr n := rfl

theorem int_toString_inj {a b : Int} (ha : 0 ≤ a) (hb : 0 ≤ b)
    (h : toString a = toString b) : a = b := by
  obtain ⟨m, rfl⟩ := Int.eq_ofNat_of_zero_le ha
  obtain ⟨n, rfl⟩ := Int.eq_ofNat_of_zero_le hb
  rw [toString_int_ofNat, toString_int_ofNat] at h
  exact congrArg Int.ofNat (nat_repr_inj h)

theorem yr_label_inj {a b : Int} (ha : 0 ≤ a) (hb : 0 ≤ b)
    (h : "Yr" ++ toString a = "Yr" ++ toString b) : a = b := by
  apply int_toString_inj ha hb
  apply String.ext
  have h2 := congrArg String.data h
  simp only [String.data_append] at h2
  exact List.append_cancel_left h2

theorem yr_ne_historical (s : String) : "Yr" ++ s ≠ "Historical" := by
  intro h
  have h2 := congrArg String.data h
  rw [String.data_append, show ("Yr" : String).data = ['Y', 'r'] from rfl,
    show ("Historical" : String).data = ['H','i','s','t','o','r','i','c','a','l'] from rfl] at h2
  simp at h2

end DemandPlan

namespace DemandPlan

/-! ### The month enumeration loop -/

theorem monthRangeAux_eq_range_map :
    ∀ (n : Nat) (d e : Int), (e + 1 - d).toNat = n →
      monthRangeAux n d e = (List.range n).map (fun k : Nat => d + (k : Int)) := by
  intro n
  induction n with
  | zero => intro d e _; rfl
  | succ n ih =>
    intro d e h
    have hde : d ≤ e := by omega
    rw [monthRangeAux, if_pos hde, ih (d + 1) e (by omega),
      List.range_succ_eq_map, List.map_cons, List.map_map]
    refine congrArg₂ List.cons (by simp) (List.map_congr_left fun k _ => ?_)
    simp only [Function.comp_apply]
    push_cast
    ring

theorem monthRange_eq (d e : Int) :
    monthRange d e = (List.range (e + 1 - d).toNat).map (fun k : Nat => d + (k : Int)) :=
  monthRangeAux_eq_range_map _ d e rfl

theorem mem_monthRange {x d e : Int} : x ∈ monthRange d e ↔ d ≤ x ∧ x ≤ e := by
  rw [monthRange_eq]
  simp only [List.mem_map, List.mem_range]
  constructor
  · rintro ⟨k, hk, rfl⟩; omega
  · rintro ⟨h1, h2⟩; exact ⟨(x - d).toNat, by omega, by omega⟩

/-! ### Bucketing facts -/

theorem year_bucket_eq_historical_iff (fs m : Date) :
    year_bucket fs m = "Historical" ↔ m < fs := by
  by_cases h : m < fs
  · simp [year_bucket, h]
  · simp [year_bucket, h, yr_ne_historical]

theorem ofMonthIndex_floor_lt_iff (fs : Date) (hm1 : 1 ≤ fs.month)
    (hm2 : fs.month ≤ 12) (j : Nat) :
    ofMonthIndex (monthIndex (floorMonth fs) + j) < fs ↔ (1 < fs.day ∧ j = 0) := by
  have h := Int.fdiv_add_fmod (monthIndex (floorMonth fs) + (j : Int)) 12
  have h2 : (monthIndex (floorMonth fs) + (j : Int)).fmod 12 =
      (monthIndex (floorMonth fs) + (j : Int)) % 12 := Int.fmod_eq_emod _ (by omega)
  simp only [ofMonthIndex, Date.lt_def, monthIndex, floorMonth] at *
  omega

theorem yearNum_ofMonthIndex (fs : Date) (j : Nat) :
    yearNum fs (ofMonthIndex (monthIndex (floorMonth fs) + j)) =
      ((j / 12 : Nat) : Int) + 1 := by
  have h := Int.fdiv_add_fmod (monthIndex (floorMonth fs) + (j : Int)) 12
  have h2 : (monthIndex (floorMonth fs) + (j : Int)).fmod 12 =
      (monthIndex (floorMonth fs) + (j : Int)) % 12 := Int.fmod_eq_emod _ (by omega)
  have hdelta : deltaMonths fs (ofMonthIndex (monthIndex (floorMonth fs) + j)) = (j : Int) := by
    simp only [deltaMonths, ofMonthIndex, monthIndex, floorMonth] at *
    omega
  rw [yearNum, hdelta, Int.fdiv_eq_ediv _ (by omega)]
  omega

end DemandPlan

namespace DemandPlan

open ForecastBucketProjector

/-! ### Closed form of the projection loop -/

theorem projectLoop_cons (fs : Date) (b : Rat) (g : List (Int × Rat))
    (m : Date) (ms : List Date) (i : Nat) (c : Rat) :
    projectLoop fs b g (m :: ms) i c =
      if year_bucket fs m = "Historical" then projectLoop fs b g ms (i + 1) c
      else
        (let yr_num := yearNum fs m
         let growth_pct := rateForBucket g yr_num
         let c' := if i % 12 = 0 ∧ 1 < yr_num then
             c * (1 + (g.lookup (yr_num - 1)).getD (1/20)) else c
         ({ month := m
            year_bucket := year_bucket fs m
            organic_growth_pct := round2 (growth_pct * 100)
            projected_usage_dollars := round2 (b * c' * (1 + growth_pct)) } :
            ForecastRow) :: projectLoop fs b g ms (i + 1) c') := by
  rw [projectLoop]

theorem range_map_shift {α : Type} (F : Nat → α) (n i : Nat) :
    (List.range (n + 1)).map (fun k => F (i + k)) =
      F i :: (List.range n).map (fun k => F (i + 1 + k)) := by
  rw [List.range_succ_eq_map, List.map_cons, List.map_map]
  refine congrArg₂ List.cons (by simp) (List.map_congr_left fun k _ => ?_)
  simp only [Function.comp_apply]
  congr 1
  omega

theorem projectLoop_eq (fs : Date) (hm1 : 1 ≤ fs.month) (hm2 : fs.month ≤ 12)
    (b : Rat) (g : List (Int × Rat)) :
    ∀ (n i : Nat),
      projectLoop fs b g
        ((List.range n).map (fun k : Nat =>
          ofMonthIndex (monthIndex (floorMonth fs) + ((i + k : Nat) : Int)))) i
        (compoundProd g ((i - 1) / 12)) =
      ((List.range n).map (fun k : Nat => i + k)).filterMap (fun j =>
        if 1 < fs.day ∧ j = 0 then none else some (rowAt fs b g j)) := by
  intro n
  induction n with
  | zero => intro i; rfl
  | succ n ih =>
    intro i
    rw [range_map_shift (fun j : Nat =>
        ofMonthIndex (monthIndex (floorMonth fs) + (j : Int))) n i,
      range_map_shift (fun j : Nat => j) n i, projectLoop_cons,
      List.filterMap_cons]
    have hhist : year_bucket fs (ofMonthIndex (monthIndex (floorMonth fs) + (i : Int)))
        = "Historical" ↔ (1 < fs.day ∧ i = 0) := by
      rw [year_bucket_eq_historical_iff, ofMonthIndex_floor_lt_iff fs hm1 hm2 i]
    by_cases hist : 1 < fs.day ∧ i = 0
    · rw [if_pos (hhist.mpr hist), if_pos hist]
      obtain ⟨-, rfl⟩ := hist
      exact ih 1
    · rw [if_neg (fun h => hist (hhist.mp h)), if_neg hist]
      have hyr := yearNum_ofMonthIndex fs i
      have hcond : (i % 12 = 0 ∧ 1 < yearNum fs
          (ofMonthIndex (monthIndex (floorMonth fs) + (i : Int)))) ↔
          (i % 12 = 0 ∧ 12 ≤ i) := by
        rw [hyr]
        constructor <;> rintro ⟨h1, h2⟩ <;> refine ⟨h1, ?_⟩ <;> omega
      have hc' : (if i % 12 = 0 ∧ 1 < yearNum fs
            (ofMonthIndex (monthIndex (floorMonth fs) + (i : Int))) then
          compoundProd g ((i - 1) / 12) *
            (1 + (g.lookup (yearNum fs
              (ofMonthIndex (monthIndex (floorMonth fs) + (i : Int))) - 1)).getD (1/20))
          else compoundProd g ((i - 1) / 12)) = compoundProd g (i / 12) := by
        by_cases hb : i % 12 = 0 ∧ 12 ≤ i
        · rw [if_pos (hcond.mpr hb), hyr]
          have h1 : i / 12 = (i - 1) / 12 + 1 := by omega
          have h2 : ((i / 12 : Nat) : Int) + 1 - 1 = (((i - 1) / 12 : Nat) : Int) + 1 := by
            omega
          rw [h2, h1, compoundProd]
        · rw [if_neg (fun h => hb (hcond.mp h))]
          have h1 : (i - 1) / 12 = i / 12 := by omega
          rw [h1]
      simp only [hc']
      refine congrArg₂ List.cons ?_ ?_
      · simp only [rowAt, year_bucket, if_neg
          ((not_iff_not.mpr (ofMonthIndex_floor_lt_iff fs hm1 hm2 i)).mpr hist), hyr]
      · exact ih (i + 1)

theorem project_eq (fs fe : Date) (hm1 : 1 ≤ fs.month) (hm2 : fs.month ≤ 12)
    (b : Rat) (g : List (Int × Rat)) :
    project fs fe b g =
      (List.range (monthCount fs fe)).filterMap (fun j =>
        if 1 < fs.day ∧ j = 0 then none
        else some (rowAt fs (if b = 0 then 1 else b) g j)) := by
  show projectLoop fs (if b = 0 then 1 else b) g
      (forecast_months fs fe) 0 1 = _
  rw [forecast_months, monthRange_eq, List.map_map]
  have h := projectLoop_eq fs hm1 hm2 (if b = 0 then 1 else b) g
    (monthCount fs fe) 0
  have hl : (List.range (monthCount fs fe)).map (fun k : Nat =>
        ofMonthIndex (monthIndex (floorMonth fs) + (((0 + k : Nat)) : Int))) =
      (List.range (monthCount fs fe)).map
        (ofMonthIndex ∘ fun k : Nat => monthIndex (floorMonth fs) + (k : Int)) := by
    refine List.map_congr_left fun k _ => ?_
    simp
  have hr : ((List.range (monthCount fs fe)).map (fun k : Nat => 0 + k)) =
      List.range (monthCount fs fe) := by
    refine Eq.trans (List.map_congr_left fun k _ => Nat.zero_add k) (List.map_id _)
  rw [hl, hr] at h
  exact h

end DemandPlan

namespace DemandPlan

open ForecastBucketProjector

/-! ### Derived helpers -/

theorem mem_project_iff (fs fe : Date) (hm1 : 1 ≤ fs.month) (hm2 : fs.month ≤ 12)
    (b : Rat) (g : List (Int × Rat)) (r : ForecastRow) :
    r ∈ project fs fe b g ↔
      ∃ j : Nat, j < monthCount fs fe ∧ ¬(1 < fs.day ∧ j = 0) ∧
        r = rowAt fs (if b = 0 then 1 else b) g j := by
  rw [project_eq fs fe hm1 hm2 b g, List.mem_filterMap]
  constructor
  · rintro ⟨j, hj, hf⟩
    by_cases hc : 1 < fs.day ∧ j = 0
    · rw [if_pos hc] at hf; exact absurd hf (by simp)
    · rw [if_neg hc] at hf
      exact ⟨j, List.mem_range.mp hj, hc, (Option.some_injective _ hf).symm⟩
  · rintro ⟨j, hj, hc, rfl⟩
    exact ⟨j, List.mem_range.mpr hj, by rw [if_neg hc]⟩

theorem compoundProd_eq_prod (g : List (Int × Rat)) (rate : Nat → Rat) (m : Nat)
    (h : ∀ k : Nat, 1 ≤ k → k ≤ m → g.lookup (k : Int) = some (rate k)) :
    compoundProd g m = ∏ k ∈ Finset.range m, (1 + rate (k + 1)) := by
  induction m with
  | zero => simp [compoundProd]
  | succ m ih =>
    rw [compoundProd, ih (fun k hk1 hk2 => h k hk1 (by omega)),
      Finset.prod_range_succ]
    have hl : g.lookup ((m : Int) + 1) = some (rate (m + 1)) := by
      have := h (m + 1) (by omega) (le_refl _)
      rwa [Nat.cast_add, Nat.cast_one] at this
    rw [hl, Option.getD_some]

theorem roundHalfEven_intCast (n : Int) : roundHalfEven (n : Rat) = n := by
  rw [roundHalfEven]
  norm_num

theorem round2_eq_of_eq_intCast {x : Rat} (n : Int) (h : x * 100 = (n : Rat)) :
    round2 x = (n : Rat) / 100 := by
  rw [round2, h, roundHalfEven_intCast]

theorem deltaMonths_nonneg (fs m : Date) (hfs2 : fs.month ≤ 12)
    (hm1 : 1 ≤ m.month) (h : ¬ m < fs) : 0 ≤ deltaMonths fs m := by
  rw [Date.lt_def] at h
  push_neg at h
  rw [deltaMonths]
  omega

end DemandPlan

namespace DemandPlan

open ForecastBucketProjector

/-- C3: `year_bucket` returns `"Historical"` exactly for months strictly
before `forecast_start`; otherwise it returns `"Yr{n}"` with
`n = floor(months_since_forecast_start / 12) + 1 ≥ 1`, and the label
`"Yr{n}"` is carried exactly by the months whose offset lies in the
12-month window `[12(n-1), 12n)` — buckets are contiguous, 12 months
wide, non-overlapping, starting at `forecast_start`. -/
theorem C3_year_bucket_windows (fs m : Date) (_hfs1 : 1 ≤ fs.month)
    (hfs2 : fs.month ≤ 12) (hm1 : 1 ≤ m.month) (_hm2 : m.month ≤ 12) :
    (year_bucket fs m = "Historical" ↔ m < fs) ∧
    (¬ m < fs → 1 ≤ yearNum fs m ∧
      year_bucket fs m = "Yr" ++ toString (yearNum fs m)) ∧
    (∀ n : Int, 1 ≤ n →
      (year_bucket fs m = "Yr" ++ toString n ↔
        (¬ m < fs ∧ 12 * (n - 1) ≤ deltaMonths fs m ∧ deltaMonths fs m < 12 * n))) := by
  have hdelta : ¬ m < fs → 0 ≤ deltaMonths fs m := deltaMonths_nonneg fs m hfs2 hm1
  have hyr : ¬ m < fs → 1 ≤ yearNum fs m := by
    intro h
    have := hdelta h
    rw [yearNum, Int.fdiv_eq_ediv _ (by omega : (0:Int) ≤ 12)]
    omega
  refine ⟨year_bucket_eq_historical_iff fs m,
    fun h => ⟨hyr h, by rw [year_bucket, if_neg h]⟩, ?_⟩
  intro n hn
  constructor
  · intro hlab
    by_cases h : m < fs
    · rw [year_bucket, if_pos h] at hlab
      exact absurd hlab.symm (yr_ne_historical _)
    · rw [year_bucket, if_neg h] at hlab
      have heq : yearNum fs m = n :=
        yr_label_inj (by have := hyr h; omega) (by omega) hlab
      have hd := hdelta h
      rw [yearNum, Int.fdiv_eq_ediv _ (by omega : (0:Int) ≤ 12)] at heq
      exact ⟨h, by omega, by omega⟩
  · rintro ⟨h, h1, h2⟩
    rw [year_bucket, if_neg h]
    have heq : yearNum fs m = n := by
      rw [yearNum, Int.fdiv_eq_ediv _ (by omega : (0:Int) ≤ 12)]
      omega
    rw [heq]

theorem C3_year_bucket_windows_witness :
    year_bucket ⟨2025, 1, 1⟩ ⟨2026, 6, 15⟩ = "Yr" ++ toString (2 : Int) ∧
    (year_bucket ⟨2025, 1, 1⟩ ⟨2024, 12, 1⟩ = "Historical" ↔
      (⟨2024, 12, 1⟩ : Date) < ⟨2025, 1, 1⟩) :=
  ⟨((C3_year_bucket_windows ⟨2025, 1, 1⟩ ⟨2026, 6, 15⟩ (by norm_num) (by norm_num)
      (by norm_num) (by norm_num)).2.2 2 (by norm_num)).mpr
    ⟨by decide, by decide, by decide⟩,
   (C3_year_bucket_windows ⟨2025, 1, 1⟩ ⟨2024, 12, 1⟩ (by norm_num) (by norm_num)
      (by norm_num) (by norm_num)).1⟩

end DemandPlan

namespace DemandPlan

open ForecastBucketProjector

theorem filterMap_ite_eq_map_filter {α β : Type} (p : α → Prop) [DecidablePred p]
    (f : α → β) (l : List α) :
    l.filterMap (fun a => if p a then none else some (f a)) =
      (l.filter (fun a => decide (¬ p a))).map f := by
  induction l with
  | nil => rfl
  | cons a t ih => by_cases h : p a <;> simp [h, ih]

/-- C7: the months emitted by `project` are exactly the first-of-month
dates from `floorMonth forecast_start` to `floorMonth forecast_end`
inclusive, ascending, minus any month bucketed `"Historical"`; and
`forecast_end < forecast_start` yields the empty sequence, not an
error. -/
theorem C7_emitted_months (fs fe : Date) (hm1 : 1 ≤ fs.month) (hm2 : fs.month ≤ 12)
    (hd : 1 ≤ fs.day) (he1 : 1 ≤ fe.month) (he2 : fe.month ≤ 12) (hde : 1 ≤ fe.day)
    (b : Rat) (g : List (Int × Rat)) :
    ((project fs fe b g).map (·.month) =
      (forecast_months fs fe).filter
        (fun m' => decide (year_bucket fs m' ≠ "Historical"))) ∧
    (∀ m' : Date, m' ∈ forecast_months fs fe ↔
      (m'.day = 1 ∧ 1 ≤ m'.month ∧ m'.month ≤ 12 ∧
        monthIndex (floorMonth fs) ≤ monthIndex m' ∧
        monthIndex m' ≤ monthIndex (floorMonth fe))) ∧
    List.Pairwise (· < ·) ((project fs fe b g).map (·.month)) ∧
    (fe < fs → project fs fe b g = []) := by
  have hmonths : forecast_months fs fe =
      (List.range (monthCount fs fe)).map
        (fun j : Nat => ofMonthIndex (monthIndex (floorMonth fs) + (j : Int))) := by
    rw [forecast_months, monthRange_eq, List.map_map]
    rfl
  have hmap : (project fs fe b g).map (·.month) =
      (List.range (monthCount fs fe)).filterMap (fun j : Nat =>
        if 1 < fs.day ∧ j = 0 then none
        else some (ofMonthIndex (monthIndex (floorMonth fs) + (j : Int)))) := by
    rw [project_eq fs fe hm1 hm2 b g, List.map_filterMap]
    refine congrArg₂ _ (funext fun j => ?_) rfl
    by_cases h : 1 < fs.day ∧ j = 0
    · rw [if_pos h, if_pos h]; rfl
    · rw [if_neg h, if_neg h]; rfl
  refine ⟨?_, ?_, ?_, ?_⟩
  · rw [hmap, hmonths, List.filter_map,
      filterMap_ite_eq_map_filter (fun j : Nat => 1 < fs.day ∧ j = 0)]
    refine congrArg _ (List.filter_congr fun j _ => ?_)
    simp only [Function.comp_apply, decide_eq_decide]
    rw [ne_eq, year_bucket_eq_historical_iff, ofMonthIndex_floor_lt_iff fs hm1 hm2 j]
  · intro m'
    rw [hmonths]
    simp only [List.mem_map, List.mem_range]
    constructor
    · rintro ⟨j, hj, rfl⟩
      refine ⟨ofMonthIndex_day _, (ofMonthIndex_month_bounds _).1,
        (ofMonthIndex_month_bounds _).2, ?_, ?_⟩ <;>
        rw [monthIndex_ofMonthIndex] <;> simp only [monthCount] at hj <;> omega
    · rintro ⟨h1, h2, h3, h4, h5⟩
      refine ⟨(monthIndex m' - monthIndex (floorMonth fs)).toNat, ?_, ?_⟩
      · simp only [monthCount]; omega
      · rw [show monthIndex (floorMonth fs) +
            ((monthIndex m' - monthIndex (floorMonth fs)).toNat : Int) = monthIndex m'
            by omega]
        exact ofMonthIndex_monthIndex_of_valid m' h2 h3 h1
  · rw [hmap, filterMap_ite_eq_map_filter (fun j : Nat => 1 < fs.day ∧ j = 0)]
    refine List.Pairwise.map _ ?_
      (List.Pairwise.sublist (List.filter_sublist _) (List.pairwise_lt_range _))
    intro j1 j2 hj
    rw [ofMonthIndex_lt_iff]
    omega
  · intro hlt
    rw [project_eq fs fe hm1 hm2 b g]
    rw [Date.lt_def] at hlt
    by_cases hidx : monthIndex (floorMonth fe) < monthIndex (floorMonth fs)
    · have : monthCount fs fe = 0 := by simp only [monthCount]; omega
      rw [this]
      rfl
    · have hcount : monthCount fs fe = 1 := by
        simp only [monthCount, monthIndex, floorMonth] at *
        omega
      have hday : 1 < fs.day := by
        simp only [monthIndex, floorMonth] at hidx
        omega
      rw [hcount]
      simp [hday]

end DemandPlan

namespace DemandPlan

open ForecastBucketProjector

theorem C7_emitted_months_witness :
    project ⟨2025, 5, 10⟩ ⟨2025, 2, 1⟩ 1000 [(1, 1/20)] = [] :=
  (C7_emitted_months ⟨2025, 5, 10⟩ ⟨2025, 2, 1⟩ (by norm_num) (by norm_num)
    (by norm_num) (by norm_num) (by norm_num) (by norm_num) 1000 [(1, 1/20)]).2.2.2
    (by decide)

/-- C10: any two projection rows carrying the same `year_bucket` label
have the same `organic_growth_pct` and the same pre-rounding projected
amount (hence also the same rounded amount): the compound multiplier and
the applied rate are functions of the bucket alone. -/
theorem C10_constant_within_bucket (fs fe : Date) (hm1 : 1 ≤ fs.month)
    (hm2 : fs.month ≤ 12) (b : Rat) (g : List (Int × Rat)) :
    ∀ r1 ∈ project fs fe b g, ∀ r2 ∈ project fs fe b g,
      r1.year_bucket = r2.year_bucket →
      r1.organic_growth_pct = r2.organic_growth_pct ∧
      ∃ p : Rat, r1.projected_usage_dollars = round2 p ∧
        r2.projected_usage_dollars = round2 p := by
  intro r1 h1 r2 h2 hlab
  obtain ⟨j1, hj1, hc1, rfl⟩ := (mem_project_iff fs fe hm1 hm2 b g r1).mp h1
  obtain ⟨j2, hj2, hc2, rfl⟩ := (mem_project_iff fs fe hm1 hm2 b g r2).mp h2
  simp only [rowAt] at hlab
  have hbq : j1 / 12 = j2 / 12 := by
    have := yr_label_inj (by omega : (0:Int) ≤ ((j1 / 12 : Nat) : Int) + 1)
      (by omega : (0:Int) ≤ ((j2 / 12 : Nat) : Int) + 1) hlab
    omega
  refine ⟨by simp only [rowAt, hbq],
    ⟨(if b = 0 then 1 else b) * compoundProd g (j2 / 12) *
      (1 + rateForBucket g (((j2 / 12 : Nat) : Int) + 1)), ?_, ?_⟩⟩
  · simp only [rowAt, hbq]
  · simp only [rowAt]

theorem C10_constant_within_bucket_witness :
    ((rowAt ⟨2025, 1, 1⟩ 1000 [(1, 1/20), (2, 1/20), (3, 1/20)] 12).organic_growth_pct =
      (rowAt ⟨2025, 1, 1⟩ 1000 [(1, 1/20), (2, 1/20), (3, 1/20)] 13).organic_growth_pct) ∧
    ∃ p : Rat,
      (rowAt ⟨2025, 1, 1⟩ 1000 [(1, 1/20), (2, 1/20), (3, 1/20)] 12).projected_usage_dollars
        = round2 p ∧
      (rowAt ⟨2025, 1, 1⟩ 1000 [(1, 1/20), (2, 1/20), (3, 1/20)] 13).projected_usage_dollars
        = round2 p := by
  have hb : (if (1000 : Rat) = 0 then (1 : Rat) else 1000) = 1000 := by norm_num
  refine C10_constant_within_bucket ⟨2025, 1, 1⟩ ⟨2026, 12, 1⟩ (by norm_num) (by norm_num)
    1000 [(1, 1/20), (2, 1/20), (3, 1/20)] _ ?_ _ ?_ ?_
  · exact (mem_project_iff _ _ (by norm_num) (by norm_num) _ _ _).mpr
      ⟨12, by decide, by norm_num, by rw [hb]⟩
  · exact (mem_project_iff _ _ (by norm_num) (by norm_num) _ _ _).mpr
      ⟨13, by decide, by norm_num, by rw [hb]⟩
  · rfl

end DemandPlan

namespace DemandPlan

open ForecastBucketProjector

/-- C2: with rates configured for buckets `1..n` and a month-aligned
start, every output row in bucket `Yr n` carries
`round2 (baseline * (∏ k < n-1, (1 + rate (k+1))) * (1 + rate n))`; and
the two pinned examples: a one-month Yr1 projection of 1000 at 5% is
1050.00, and the first Yr2 month of a 10%/10% scenario is 1210.00. -/
theorem C2_compounded_bucket_amount :
    (∀ (fs fe : Date) (b : Rat) (g : List (Int × Rat)) (n : Nat) (rate : Nat → Rat),
      1 ≤ fs.month → fs.month ≤ 12 → fs.day = 1 → b ≠ 0 → 1 ≤ n →
      (∀ k : Nat, 1 ≤ k → k ≤ n → g.lookup (k : Int) = some (rate k)) →
      ∀ r ∈ project fs fe b g, r.year_bucket = "Yr" ++ toString ((n : Nat) : Int) →
        r.projected_usage_dollars =
          round2 (b * (∏ k ∈ Finset.range (n - 1), (1 + rate (k + 1))) * (1 + rate n))) ∧
    project ⟨2025, 1, 1⟩ ⟨2025, 1, 1⟩ 1000 [(1, 1/20)] =
      [{ month := ⟨2025, 1, 1⟩, year_bucket := "Yr1",
         organic_growth_pct := 5, projected_usage_dollars := 1050 }] ∧
    (project ⟨2025, 1, 1⟩ ⟨2026, 1, 1⟩ 1000 [(1, 1/10), (2, 1/10)])[12]? =
      some { month := ⟨2026, 1, 1⟩, year_bucket := "Yr2",
             organic_growth_pct := 10, projected_usage_dollars := 1210 } := by
  refine ⟨?_, ?_, ?_⟩
  · intro fs fe b g n rate hm1 hm2 hday hb hn hcfg r hr hlab
    obtain ⟨j, hj, hc, rfl⟩ := (mem_project_iff fs fe hm1 hm2 b g r).mp hr
    simp only [rowAt] at hlab ⊢
    have hq : j / 12 + 1 = n := by
      have := yr_label_inj (by omega) (by omega) hlab
      omega
    rw [if_neg hb]
    have hrate : rateForBucket g (((j / 12 : Nat) : Int) + 1) = rate n := by
      rw [rateForBucket, show (((j / 12 : Nat) : Int) + 1) = ((n : Nat) : Int) by omega,
        hcfg n hn (le_refl n), Option.getD_some]
    have hcomp : compoundProd g (j / 12) =
        ∏ k ∈ Finset.range (n - 1), (1 + rate (k + 1)) := by
      rw [show j / 12 = n - 1 by omega]
      exact compoundProd_eq_prod g rate (n - 1) (fun k h1 h2 => hcfg k h1 (by omega))
    rw [hrate, hcomp]
  · rw [project_eq _ _ (by norm_num) (by norm_num),
      show monthCount ⟨2025, 1, 1⟩ ⟨2025, 1, 1⟩ = 1 from by decide,
      show List.range 1 = [0] from by decide]
    simp only [List.filterMap_cons, List.filterMap_nil]
    rw [if_neg (fun h => absurd h.1
      (by decide : ¬ (1 : Int) < (⟨2025, 1, 1⟩ : Date).day))]
    show [rowAt ⟨2025, 1, 1⟩ (if (1000 : Rat) = 0 then 1 else 1000) [(1, 1/20)] 0] = _
    rw [if_neg (by norm_num : ¬(1000 : Rat) = 0)]
    have hrf : rateForBucket [((1 : Int), (1 : Rat)/20)] (((0 / 12 : Nat) : Int) + 1)
        = 1/20 := rfl
    simp only [rowAt, ForecastRow.mk.injEq, List.cons.injEq, and_true]
    refine ⟨by decide, by decide, ?_, ?_⟩
    · rw [hrf, round2_eq_of_eq_intCast 500 (by norm_num)]
      norm_num
    · rw [hrf, show (0 : Nat) / 12 = 0 from rfl, compoundProd,
        round2_eq_of_eq_intCast 105000 (by norm_num)]
      norm_num
  · rw [project_eq _ _ (by norm_num) (by norm_num),
      show monthCount ⟨2025, 1, 1⟩ ⟨2026, 1, 1⟩ = 13 from by decide]
    have hfm : ∀ j : Nat, (if (1 : Int) < (⟨2025, 1, 1⟩ : Date).day ∧ j = 0 then none
        else some (rowAt ⟨2025, 1, 1⟩
          (if (1000 : Rat) = 0 then 1 else 1000) [(1, 1/10), (2, 1/10)] j)) =
        some (rowAt ⟨2025, 1, 1⟩ 1000 [(1, 1/10), (2, 1/10)] j) := by
      intro j
      rw [if_neg (fun h => absurd h.1 (by decide)),
        if_neg (by norm_num : ¬(1000 : Rat) = 0)]
    rw [show List.range 13 = [0, 1, 2, 3, 4, 5, 6, 7, 8, 9, 10, 11, 12] from rfl]
    simp only [List.filterMap_cons, hfm, List.filterMap_nil]
    simp only [List.getElem?_cons_succ, List.getElem?_cons_zero, Option.some.injEq]
    simp only [rowAt, ForecastRow.mk.injEq]
    have hrf : rateForBucket [((1 : Int), (1 : Rat)/10), (2, 1/10)]
        (((12 / 12 : Nat) : Int) + 1) = 1/10 := rfl
    have hcp : compoundProd [((1 : Int), (1 : Rat)/10), (2, 1/10)] (12 / 12) =
        1 * (1 + 1/10) := rfl
    refine ⟨by decide, by decide, ?_, ?_⟩
    · rw [hrf, round2_eq_of_eq_intCast 1000 (by norm_num)]
      norm_num
    · rw [hrf, hcp, round2_eq_of_eq_intCast 121000 (by norm_num)]
      norm_num

end DemandPlan

namespace DemandPlan

open ForecastBucketProjector

theorem C2_compounded_bucket_amount_witness :
    (rowAt ⟨2025, 1, 1⟩ 1000 [(1, 1/10), (2, 1/10)] 12).projected_usage_dollars =
      round2 (1000 * (∏ k ∈ Finset.range 1, (1 + (fun _ : Nat => (1 : Rat)/10) (k + 1))) *
        (1 + (fun _ : Nat => (1 : Rat)/10) 2)) := by
  refine C2_compounded_bucket_amount.1 ⟨2025, 1, 1⟩ ⟨2026, 1, 1⟩ 1000
    [(1, 1/10), (2, 1/10)] 2 (fun _ : Nat => (1 : Rat)/10) (by norm_num) (by norm_num)
    rfl (by norm_num) (by norm_num) (fun k h1 h2 => ?_) _ ?_ ?_
  · interval_cases k <;> rfl
  · exact (mem_project_iff _ _ (by norm_num) (by norm_num) _ _ _).mpr
      ⟨12, by decide, by norm_num, by rw [if_neg (by norm_num : ¬(1000 : Rat) = 0)]⟩
  · rfl

end DemandPlan

namespace DemandPlan

open ForecastBucketProjector

theorem roundHalfEven_add_half {x : Rat} (n : Int) (h : x = (n : Rat) + 1/2)
    (he : n % 2 = 0) : roundHalfEven x = n := by
  have hf : ⌊x⌋ = n := by
    rw [h, Int.floor_eq_iff]
    constructor
    · norm_num
    · norm_num
  simp only [roundHalfEven, hf]
  rw [if_neg (by rw [h]; norm_num), if_neg (by rw [h]; norm_num), if_pos he]

theorem round2_add_half {x : Rat} (n : Int) (h : x * 100 = (n : Rat) + 1/2)
    (he : n % 2 = 0) : round2 x = (n : Rat) / 100 := by
  rw [round2, roundHalfEven_add_half n h he]

/-- C1 counterexample: with `rates = {1: 0.10, 2: 0.10}` the bucket-3
month 2027-01 is projected with the hard-coded constant rate `0.05`
(`organic_growth_pct = 5`), not with the highest configured bucket's rate
`0.10` — `round2 (0.10 * 100) = 10 ≠ 5` — refuting the claimed
fallback-to-highest-configured-bucket rule. -/
theorem C1_fallback_counterexample :
    (project ⟨2025, 1, 1⟩ ⟨2027, 1, 1⟩ 1000 [(1, 1/10), (2, 1/10)])[24]? =
      some { month := ⟨2027, 1, 1⟩, year_bucket := "Yr3",
             organic_growth_pct := 5, projected_usage_dollars := 2541/2 } ∧
    round2 ((1/10) * 100) = 10 ∧ ((5 : Rat) ≠ 10) := by
  refine ⟨?_, ?_, by norm_num⟩
  · rw [project_eq _ _ (by norm_num) (by norm_num),
      show monthCount ⟨2025, 1, 1⟩ ⟨2027, 1, 1⟩ = 25 from by decide]
    have hfm : ∀ j : Nat, (if (1 : Int) < (⟨2025, 1, 1⟩ : Date).day ∧ j = 0 then none
        else some (rowAt ⟨2025, 1, 1⟩
          (if (1000 : Rat) = 0 then 1 else 1000) [(1, 1/10), (2, 1/10)] j)) =
        some (rowAt ⟨2025, 1, 1⟩ 1000 [(1, 1/10), (2, 1/10)] j) := by
      intro j
      rw [if_neg (fun h => absurd h.1
        (by decide : ¬ (1 : Int) < (⟨2025, 1, 1⟩ : Date).day)),
        if_neg (by norm_num : ¬(1000 : Rat) = 0)]
    rw [show List.range 25 = [0, 1, 2, 3, 4, 5, 6, 7, 8, 9, 10, 11, 12, 13, 14, 15,
      16, 17, 18, 19, 20, 21, 22, 23, 24] from rfl]
    simp only [List.filterMap_cons, hfm, List.filterMap_nil]
    simp only [List.getElem?_cons_succ, List.getElem?_cons_zero, Option.some.injEq]
    have hrf : rateForBucket [((1 : Int), (1 : Rat)/10), (2, 1/10)]
        (((24 / 12 : Nat) : Int) + 1) = 1/20 := rfl
    have hcp : compoundProd [((1 : Int), (1 : Rat)/10), (2, 1/10)] (24 / 12) =
        1 * (1 + 1/10) * (1 + 1/10) := rfl
    simp only [rowAt, ForecastRow.mk.injEq]
    refine ⟨by decide, by decide, ?_, ?_⟩
    · rw [hrf, round2_eq_of_eq_intCast 500 (by norm_num)]
      norm_num
    · rw [hrf, hcp, round2_eq_of_eq_intCast 127050 (by norm_num)]
      norm_num
  · rw [round2_eq_of_eq_intCast 1000 (by norm_num)]
    norm_num

/-- C1 amended: a bucket whose rate is missing from `growth_by_yr` does
not fall back to the highest configured bucket.  The projected-amount
formula falls back to the configured rate of bucket 3 when present and to
the constant `0.05` otherwise (`growth_by_yr.get(yr_num,
growth_by_yr.get(3, 0.05))`); the year-boundary compounding step falls
back to the constant `0.05` directly (`growth_by_yr.get(yr_num - 1,
0.05)`).  With `rates = {1: 0.05, 2: 0.05}` a bucket-3 month does use
rate 0.05 — the hard-coded default, which coincides with the highest
configured rate there. -/
theorem C1_fallback_amended :
    (∀ (fs fe : Date) (b : Rat) (g : List (Int × Rat)) (n : Nat),
      1 ≤ fs.month → fs.month ≤ 12 →
      g.lookup ((n : Nat) : Int) = none →
      ∀ r ∈ project fs fe b g, r.year_bucket = "Yr" ++ toString ((n : Nat) : Int) →
        r.organic_growth_pct = round2 ((g.lookup 3).getD (1/20) * 100)) ∧
    (∀ (fs fe : Date) (b : Rat) (g : List (Int × Rat)) (n : Nat),
      1 ≤ fs.month → fs.month ≤ 12 → 2 ≤ n →
      g.lookup (((n : Nat) : Int) - 1) = none →
      ∀ r ∈ project fs fe b g, r.year_bucket = "Yr" ++ toString ((n : Nat) : Int) →
        r.projected_usage_dollars =
          round2 ((if b = 0 then 1 else b) * (compoundProd g (n - 2) * (1 + 1/20)) *
            (1 + rateForBucket g ((n : Nat) : Int)))) ∧
    (project ⟨2025, 1, 1⟩ ⟨2027, 1, 1⟩ 1000 [(1, 1/20), (2, 1/20)])[24]? =
      some { month := ⟨2027, 1, 1⟩, year_bucket := "Yr3",
             organic_growth_pct := 5, projected_usage_dollars := 57881/50 } := by
  refine ⟨?_, ?_, ?_⟩
  · intro fs fe b g n hm1 hm2 hlk r hr hlab
    obtain ⟨j, hj, hc, rfl⟩ := (mem_project_iff fs fe hm1 hm2 b g r).mp hr
    simp only [rowAt] at hlab ⊢
    have hq : j / 12 + 1 = n := by
      have := yr_label_inj (by omega) (by omega) hlab
      omega
    rw [rateForBucket, show (((j / 12 : Nat) : Int) + 1) = ((n : Nat) : Int) by omega,
      hlk, Option.getD_none]
  · intro fs fe b g n hm1 hm2 hn hlk r hr hlab
    obtain ⟨j, hj, hc, rfl⟩ := (mem_project_iff fs fe hm1 hm2 b g r).mp hr
    simp only [rowAt] at hlab ⊢
    have hq : j / 12 + 1 = n := by
      have := yr_label_inj (by omega) (by omega) hlab
      omega
    rw [show (((j / 12 : Nat) : Int) + 1) = ((n : Nat) : Int) by omega,
      show j / 12 = (n - 2) + 1 by omega, compoundProd,
      show (((n - 2 : Nat) : Int) + 1) = (((n : Nat) : Int) - 1) by omega,
      hlk, Option.getD_none]
  · rw [project_eq _ _ (by norm_num) (by norm_num),
      show monthCount ⟨2025, 1, 1⟩ ⟨2027, 1, 1⟩ = 25 from by decide]
    have hfm : ∀ j : Nat, (if (1 : Int) < (⟨2025, 1, 1⟩ : Date).day ∧ j = 0 then none
        else some (rowAt ⟨2025, 1, 1⟩
          (if (1000 : Rat) = 0 then 1 else 1000) [(1, 1/20), (2, 1/20)] j)) =
        some (rowAt ⟨2025, 1, 1⟩ 1000 [(1, 1/20), (2, 1/20)] j) := by
      intro j
      rw [if_neg (fun h => absurd h.1
        (by decide : ¬ (1 : Int) < (⟨2025, 1, 1⟩ : Date).day)),
        if_neg (by norm_num : ¬(1000 : Rat) = 0)]
    rw [show List.range 25 = [0, 1, 2, 3, 4, 5, 6, 7, 8, 9, 10, 11, 12, 13, 14, 15,
      16, 17, 18, 19, 20, 21, 22, 23, 24] from rfl]
    simp only [List.filterMap_cons, hfm, List.filterMap_nil]
    simp only [List.getElem?_cons_succ, List.getElem?_cons_zero, Option.some.injEq]
    have hrf : rateForBucket [((1 : Int), (1 : Rat)/20), (2, 1/20)]
        (((24 / 12 : Nat) : Int) + 1) = 1/20 := rfl
    have hcp : compoundProd [((1 : Int), (1 : Rat)/20), (2, 1/20)] (24 / 12) =
        1 * (1 + 1/20) * (1 + 1/20) := rfl
    simp only [rowAt, ForecastRow.mk.injEq]
    refine ⟨by decide, by decide, ?_, ?_⟩
    · rw [hrf, round2_eq_of_eq_intCast 500 (by norm_num)]
      norm_num
    · rw [hrf, hcp, round2_add_half 115762 (by norm_num) (by norm_num)]
      norm_num

theorem C1_fallback_amended_witness :
    (rowAt ⟨2025, 1, 1⟩ 1000 [(1, 1/20), (2, 1/20)] 24).organic_growth_pct =
      round2 ((([((1 : Int), (1 : Rat)/20), (2, 1/20)].lookup 3).getD (1/20)) * 100) := by
  refine C1_fallback_amended.1 ⟨2025, 1, 1⟩ ⟨2027, 1, 1⟩ 1000 [(1, 1/20), (2, 1/20)] 3
    (by norm_num) (by norm_num) rfl _ ?_ rfl
  exact (mem_project_iff _ _ (by norm_num) (by norm_num) _ _ _).mpr
    ⟨24, by decide, by norm_num, by rw [if_neg (by norm_num : ¬(1000 : Rat) = 0)]⟩

end DemandPlan

namespace DemandPlan

open ForecastBucketProjector

/-- C8: a baseline of exactly zero is replaced by the fixed non-zero
placeholder `1.0` before projecting (so the output is the same as for
baseline 1, and rows are non-zero), while a strictly negative baseline
passes through unmodified and yields negative projected amounts. -/
theorem C8_zero_baseline_placeholder :
    (∀ (fs fe : Date) (g : List (Int × Rat)),
      project fs fe 0 g = project fs fe 1 g) ∧
    (∀ (fs fe : Date) (b : Rat) (g : List (Int × Rat)), b < 0 →
      project fs fe b g = projectLoop fs b g (forecast_months fs fe) 0 1) ∧
    project ⟨2025, 1, 1⟩ ⟨2025, 1, 1⟩ 0 [(1, 1/20)] =
      [{ month := ⟨2025, 1, 1⟩, year_bucket := "Yr1",
         organic_growth_pct := 5, projected_usage_dollars := 21/20 }] ∧
    project ⟨2025, 1, 1⟩ ⟨2025, 1, 1⟩ (-1000) [(1, 1/20)] =
      [{ month := ⟨2025, 1, 1⟩, year_bucket := "Yr1",
         organic_growth_pct := 5, projected_usage_dollars := -1050 }] := by
  refine ⟨?_, ?_, ?_, ?_⟩
  · intro fs fe g
    show projectLoop fs (if (0 : Rat) = 0 then 1 else 0) g _ 0 1 =
      projectLoop fs (if (1 : Rat) = 0 then 1 else 1) g _ 0 1
    rw [if_pos rfl, if_neg (by norm_num : ¬(1 : Rat) = 0)]
  · intro fs fe b g hb
    show projectLoop fs (if b = 0 then 1 else b) g _ 0 1 = _
    rw [if_neg (ne_of_lt hb)]
  · rw [project_eq _ _ (by norm_num) (by norm_num),
      show monthCount ⟨2025, 1, 1⟩ ⟨2025, 1, 1⟩ = 1 from by decide,
      show List.range 1 = [0] from by decide]
    simp only [List.filterMap_cons, List.filterMap_nil]
    rw [if_neg (fun h => absurd h.1
      (by decide : ¬ (1 : Int) < (⟨2025, 1, 1⟩ : Date).day))]
    show [rowAt ⟨2025, 1, 1⟩ (if (0 : Rat) = 0 then 1 else 0) [(1, 1/20)] 0] = _
    rw [if_pos rfl]
    have hrf : rateForBucket [((1 : Int), (1 : Rat)/20)] (((0 / 12 : Nat) : Int) + 1)
        = 1/20 := rfl
    simp only [rowAt, ForecastRow.mk.injEq, List.cons.injEq, and_true]
    refine ⟨by decide, by decide, ?_, ?_⟩
    · rw [hrf, round2_eq_of_eq_intCast 500 (by norm_num)]
      norm_num
    · rw [hrf, show (0 : Nat) / 12 = 0 from rfl, compoundProd,
        round2_eq_of_eq_intCast 105 (by norm_num)]
      norm_num
  · rw [project_eq _ _ (by norm_num) (by norm_num),
      show monthCount ⟨2025, 1, 1⟩ ⟨2025, 1, 1⟩ = 1 from by decide,
      show List.range 1 = [0] from by decide]
    simp only [List.filterMap_cons, List.filterMap_nil]
    rw [if_neg (fun h => absurd h.1
      (by decide : ¬ (1 : Int) < (⟨2025, 1, 1⟩ : Date).day))]
    show [rowAt ⟨2025, 1, 1⟩ (if (-1000 : Rat) = 0 then 1 else -1000) [(1, 1/20)] 0] = _
    rw [if_neg (by norm_num : ¬(-1000 : Rat) = 0)]
    have hrf : rateForBucket [((1 : Int), (1 : Rat)/20)] (((0 / 12 : Nat) : Int) + 1)
        = 1/20 := rfl
    simp only [rowAt, ForecastRow.mk.injEq, List.cons.injEq, and_true]
    refine ⟨by decide, by decide, ?_, ?_⟩
    · rw [hrf, round2_eq_of_eq_intCast 500 (by norm_num)]
      norm_num
    · rw [hrf, show (0 : Nat) / 12 = 0 from rfl, compoundProd,
        round2_eq_of_eq_intCast (-105000) (by norm_num)]
      norm_num

theorem C8_zero_baseline_placeholder_witness :
    project ⟨2025, 1, 1⟩ ⟨2025, 1, 1⟩ (-1000) [(1, 1/20)] =
      projectLoop ⟨2025, 1, 1⟩ (-1000) [(1, 1/20)]
        (forecast_months ⟨2025, 1, 1⟩ ⟨2025, 1, 1⟩) 0 1 :=
  C8_zero_baseline_placeholder.2.1 ⟨2025, 1, 1⟩ ⟨2025, 1, 1⟩ (-1000) [(1, 1/20)]
    (by norm_num)

end DemandPlan

namespace DemandPlan

open GrowthSeriesCalculator

theorem passesWhere_iff (min_growth : Option Rat) (r : HistRow) :
    passesWhere min_growth r = true ↔
      (0 < r.dbu_dollars ∧ ∀ gmin : Rat, min_growth = some gmin →
        (r.mom_growth_pct = none ∨ ∃ v : Rat, r.mom_growth_pct = some v ∧ gmin ≤ v)) := by
  cases min_growth with
  | none => simp [passesWhere]
  | some gmin =>
    cases hm : r.mom_growth_pct with
    | none => simp [passesWhere, hm]
    | some v => simp [passesWhere, hm]

/-- C4: a CTE row reaches the query output exactly when `dbu_dollars > 0`
and, if a minimum growth filter is supplied, its `mom_growth_pct` is NULL
or at least the minimum (given a row limit that does not truncate); and
every output row unconditionally satisfies both filters. -/
theorem C4_where_filter (facts : List ConsumptionFact) (min_growth : Option Rat)
    (result_limit : Nat) (r : HistRow) :
    (r ∈ historicalRows facts min_growth result_limit →
      r ∈ historical_consumption facts ∧ 0 < r.dbu_dollars ∧
      (∀ gmin : Rat, min_growth = some gmin →
        (r.mom_growth_pct = none ∨ ∃ v : Rat, r.mom_growth_pct = some v ∧ gmin ≤ v))) ∧
    (facts.length ≤ result_limit → r ∈ historical_consumption facts →
      0 < r.dbu_dollars →
      (∀ gmin : Rat, min_growth = some gmin →
        (r.mom_growth_pct = none ∨ ∃ v : Rat, r.mom_growth_pct = some v ∧ gmin ≤ v)) →
      r ∈ historicalRows facts min_growth result_limit) := by
  constructor
  · intro hr
    have h1 : r ∈ ((historical_consumption facts).filter
        (passesWhere min_growth)).insertionSort histOrder :=
      List.mem_of_mem_take hr
    have h2 : r ∈ (historical_consumption facts).filter (passesWhere min_growth) :=
      (List.perm_insertionSort histOrder _).mem_iff.mp h1
    have h3 := List.mem_filter.mp h2
    have h4 := (passesWhere_iff min_growth r).mp h3.2
    exact ⟨h3.1, h4.1, h4.2⟩
  · intro hlen hmem hpos hmin
    have h2 : r ∈ (historical_consumption facts).filter (passesWhere min_growth) :=
      List.mem_filter.mpr ⟨hmem, (passesWhere_iff min_growth r).mpr ⟨hpos, hmin⟩⟩
    have hlen2 : (((historical_consumption facts).filter
        (passesWhere min_growth)).insertionSort histOrder).length ≤ result_limit := by
      rw [List.length_insertionSort]
      refine le_trans (le_trans (List.length_filter_le _ _) ?_) hlen
      rw [historical_consumption, List.length_map]
    rw [historicalRows, List.take_of_length_le hlen2]
    exact (List.perm_insertionSort histOrder _).mem_iff.mpr h2

theorem C4_where_filter_witness :
    ({ account_id := "a1", account_name := "Acme", usage_date := ⟨2025, 2, 1⟩,
       dbu_dollars := 150, organic_growth_baseline := 0, forecast_consumption_ds := 0,
       submitted_ae_forecast := 0, business_unit := "BU", BU1 := "B1",
       prev_month_dbu_dollars := lagDollars
         [⟨"a1", "Acme", ⟨2025, 1, 1⟩, 100, 0, 0, 0, "BU", "B1"⟩,
          ⟨"a1", "Acme", ⟨2025, 2, 1⟩, 150, 0, 0, 0, "BU", "B1"⟩]
         ⟨"a1", "Acme", ⟨2025, 2, 1⟩, 150, 0, 0, 0, "BU", "B1"⟩,
       mom_growth_pct := mom_growth_pct 150 (lagDollars
         [⟨"a1", "Acme", ⟨2025, 1, 1⟩, 100, 0, 0, 0, "BU", "B1"⟩,
          ⟨"a1", "Acme", ⟨2025, 2, 1⟩, 150, 0, 0, 0, "BU", "B1"⟩]
         ⟨"a1", "Acme", ⟨2025, 2, 1⟩, 150, 0, 0, 0, "BU", "B1"⟩) } : HistRow) ∈
      historicalRows
        [⟨"a1", "Acme", ⟨2025, 1, 1⟩, 100, 0, 0, 0, "BU", "B1"⟩,
         ⟨"a1", "Acme", ⟨2025, 2, 1⟩, 150, 0, 0, 0, "BU", "B1"⟩] none 100 := by
  refine (C4_where_filter _ none 100 _).2 (by norm_num) ?_ (by norm_num) ?_
  · exact List.mem_map.mpr ⟨⟨"a1", "Acme", ⟨2025, 2, 1⟩, 150, 0, 0, 0, "BU", "B1"⟩,
      by simp, rfl⟩
  · intro gmin h
    exact absurd h (by simp)

/-- C5: `mom_growth_pct` is NULL whenever the lagged amount is NULL or
non-positive (the division is guarded, never performed there), and equals
`((dbu - prev) / prev) * 100` whenever the lagged amount is strictly
positive. -/
theorem C5_growth_guard (facts : List ConsumptionFact) (r : HistRow)
    (hr : r ∈ historical_consumption facts) :
    (r.prev_month_dbu_dollars = none → r.mom_growth_pct = none) ∧
    (∀ p : Rat, r.prev_month_dbu_dollars = some p → p ≤ 0 →
      r.mom_growth_pct = none) ∧
    (∀ p : Rat, r.prev_month_dbu_dollars = some p → 0 < p →
      r.mom_growth_pct = some ((r.dbu_dollars - p) / p * 100)) := by
  obtain ⟨f, -, rfl⟩ := List.mem_map.mp hr
  refine ⟨?_, ?_, ?_⟩
  · intro h
    have h' : lagDollars facts f = none := h
    show mom_growth_pct f.dbu_dollars (lagDollars facts f) = none
    rw [h', mom_growth_pct]
  · intro p hp hle
    have hp' : lagDollars facts f = some p := hp
    show mom_growth_pct f.dbu_dollars (lagDollars facts f) = none
    rw [hp', mom_growth_pct, if_neg (not_lt.mpr hle)]
  · intro p hp hpos
    have hp' : lagDollars facts f = some p := hp
    show mom_growth_pct f.dbu_dollars (lagDollars facts f) = some _
    rw [hp', mom_growth_pct, if_pos hpos]

theorem C5_growth_guard_witness :
    mom_growth_pct 50 (lagDollars
      [⟨"a1", "Acme", ⟨2025, 1, 1⟩, 0, 0, 0, 0, "BU", "B1"⟩,
       ⟨"a1", "Acme", ⟨2025, 2, 1⟩, 50, 0, 0, 0, "BU", "B1"⟩]
      ⟨"a1", "Acme", ⟨2025, 2, 1⟩, 50, 0, 0, 0, "BU", "B1"⟩) = none := by
  refine (C5_growth_guard
    [⟨"a1", "Acme", ⟨2025, 1, 1⟩, 0, 0, 0, 0, "BU", "B1"⟩,
     ⟨"a1", "Acme", ⟨2025, 2, 1⟩, 50, 0, 0, 0, "BU", "B1"⟩]
    { account_id := "a1", account_name := "Acme", usage_date := ⟨2025, 2, 1⟩,
      dbu_dollars := 50, organic_growth_baseline := 0, forecast_consumption_ds := 0,
      submitted_ae_forecast := 0, business_unit := "BU", BU1 := "B1",
      prev_month_dbu_dollars := lagDollars
        [⟨"a1", "Acme", ⟨2025, 1, 1⟩, 0, 0, 0, 0, "BU", "B1"⟩,
         ⟨"a1", "Acme", ⟨2025, 2, 1⟩, 50, 0, 0, 0, "BU", "B1"⟩]
        ⟨"a1", "Acme", ⟨2025, 2, 1⟩, 50, 0, 0, 0, "BU", "B1"⟩,
      mom_growth_pct := mom_growth_pct 50 (lagDollars
        [⟨"a1", "Acme", ⟨2025, 1, 1⟩, 0, 0, 0, 0, "BU", "B1"⟩,
         ⟨"a1", "Acme", ⟨2025, 2, 1⟩, 50, 0, 0, 0, "BU", "B1"⟩]
        ⟨"a1", "Acme", ⟨2025, 2, 1⟩, 50, 0, 0, 0, "BU", "B1"⟩) } ?_).2.1 0 ?_ le_rfl
  · exact List.mem_map.mpr ⟨⟨"a1", "Acme", ⟨2025, 2, 1⟩, 50, 0, 0, 0, "BU", "B1"⟩,
      by simp, rfl⟩
  · decide

end DemandPlan

namespace DemandPlan

open GrowthSeriesCalculator

/-- C6 counterexample: the query orders by `account_name`, not by the
grouping key `account_id`.  With account "Alpha" having id "a2" and
account "Beta" having id "a1", the output rows carry ids
`["a2", "a1"]` — not ascending in `entity_id`. -/
theorem C6_order_counterexample :
    ((historicalRows
        [⟨"a2", "Alpha", ⟨2025, 1, 1⟩, 100, 0, 0, 0, "BU", "B1"⟩,
         ⟨"a1", "Beta", ⟨2025, 1, 1⟩, 100, 0, 0, 0, "BU", "B1"⟩] none 10).map
      (·.account_id) = ["a2", "a1"]) ∧
    ¬ List.Pairwise (fun a b : HistRow => a.account_id ≤ b.account_id)
      (historicalRows
        [⟨"a2", "Alpha", ⟨2025, 1, 1⟩, 100, 0, 0, 0, "BU", "B1"⟩,
         ⟨"a1", "Beta", ⟨2025, 1, 1⟩, 100, 0, 0, 0, "BU", "B1"⟩] none 10) := by
  have hord : histOrder
      ⟨"a2", "Alpha", ⟨2025, 1, 1⟩, 100, 0, 0, 0, "BU", "B1", none, none⟩
      ⟨"a1", "Beta", ⟨2025, 1, 1⟩, 100, 0, 0, 0, "BU", "B1", none, none⟩ :=
    Or.inl (by simp; decide)
  have hrows : historicalRows
      [⟨"a2", "Alpha", ⟨2025, 1, 1⟩, 100, 0, 0, 0, "BU", "B1"⟩,
       ⟨"a1", "Beta", ⟨2025, 1, 1⟩, 100, 0, 0, 0, "BU", "B1"⟩] none 10 =
      [⟨"a2", "Alpha", ⟨2025, 1, 1⟩, 100, 0, 0, 0, "BU", "B1", none, none⟩,
       ⟨"a1", "Beta", ⟨2025, 1, 1⟩, 100, 0, 0, 0, "BU", "B1", none, none⟩] := by
    rw [historicalRows,
      show historical_consumption
          [⟨"a2", "Alpha", ⟨2025, 1, 1⟩, 100, 0, 0, 0, "BU", "B1"⟩,
           ⟨"a1", "Beta", ⟨2025, 1, 1⟩, 100, 0, 0, 0, "BU", "B1"⟩] =
        [⟨"a2", "Alpha", ⟨2025, 1, 1⟩, 100, 0, 0, 0, "BU", "B1", none, none⟩,
         ⟨"a1", "Beta", ⟨2025, 1, 1⟩, 100, 0, 0, 0, "BU", "B1", none, none⟩]
        from by decide,
      show List.filter (passesWhere none)
          [⟨"a2", "Alpha", ⟨2025, 1, 1⟩, 100, 0, 0, 0, "BU", "B1", none, none⟩,
           ⟨"a1", "Beta", ⟨2025, 1, 1⟩, 100, 0, 0, 0, "BU", "B1", none, none⟩] =
        [⟨"a2", "Alpha", ⟨2025, 1, 1⟩, 100, 0, 0, 0, "BU", "B1", none, none⟩,
         ⟨"a1", "Beta", ⟨2025, 1, 1⟩, 100, 0, 0, 0, "BU", "B1", none, none⟩]
        from by decide]
    simp only [List.insertionSort, List.orderedInsert]
    rw [if_pos hord]
    rfl
  rw [hrows]
  refine ⟨rfl, fun hpair => ?_⟩
  have h := (List.pairwise_cons.mp hpair).1 _ (List.mem_cons_self _ _)
  exact absurd h (not_le.mpr (by simp; decide))

/-- C6 amended: the output is the first `result_limit` rows of a list
that is a permutation of the filtered CTE rows sorted by `account_name`
ascending then `usage_date` descending (the `ORDER BY` of the query);
truncation by `LIMIT` happens only after filtering and this sort.  The
displayed entity column (`account_name`) is ascending; the partition key
`account_id` need not be. -/
theorem C6_order_and_limit (facts : List ConsumptionFact) (min_growth : Option Rat)
    (result_limit : Nat) :
    ∃ sorted_rows : List HistRow,
      sorted_rows.Perm ((historical_consumption facts).filter (passesWhere min_growth)) ∧
      List.Pairwise (fun a b => a.account_name < b.account_name ∨
        (a.account_name = b.account_name ∧ b.usage_date ≤ a.usage_date)) sorted_rows ∧
      historicalRows facts min_growth result_limit = sorted_rows.take result_limit :=
  ⟨_, List.perm_insertionSort histOrder _,
    (List.sorted_insertionSort histOrder _).imp (fun h => h), rfl⟩

end DemandPlan

namespace DemandPlan

open ForecastBucketProjector

/-- C9 counterexample: non-positive (or malformed) `result_limit` values
are not rejected with an error — the notebook clamps them into
`[1, 10000]` (so `"0"` and `"-5"` become `1`) or falls back to `500`; and
an empty growth-rate mapping is not rejected either — the projection
still returns rows, using the built-in `0.05` fallback rate. -/
theorem C9_no_rejection_counterexample :
    resolve_result_limit "0" = 1 ∧ resolve_result_limit "-5" = 1 ∧
    resolve_result_limit "oops" = 500 ∧
    project ⟨2025, 1, 1⟩ ⟨2025, 1, 1⟩ 1000 [] ≠ [] := by
  refine ⟨by decide, by decide, by decide, ?_⟩
  rw [project_eq _ _ (by norm_num) (by norm_num),
    show monthCount ⟨2025, 1, 1⟩ ⟨2025, 1, 1⟩ = 1 from by decide,
    show List.range 1 = [0] from by decide]
  simp only [List.filterMap_cons, List.filterMap_nil]
  rw [if_neg (fun h => absurd h.1
    (by decide : ¬ (1 : Int) < (⟨2025, 1, 1⟩ : Date).day))]
  simp

/-- C9 amended: configuration is clamped, not rejected.  A parsed
`result_limit` is forced into `[1, 10000]` (non-positive values become
`1`), an unparsable one becomes `500`, an in-range one is kept; and the
projection accepts an empty growth-rate mapping, producing rows with the
hard-coded `0.05` fallback rate instead of raising an error. -/
theorem C9_clamp_amended :
    (∀ (s : String) (n : Int), parseInt? s = some n → n ≤ 0 →
      resolve_result_limit s = 1) ∧
    (∀ s : String, parseInt? s = none → resolve_result_limit s = 500) ∧
    (∀ (s : String) (n : Int), parseInt? s = some n → 1 ≤ n → n ≤ 10000 →
      resolve_result_limit s = n) ∧
    project ⟨2025, 1, 1⟩ ⟨2025, 1, 1⟩ 1000 [] =
      [{ month := ⟨2025, 1, 1⟩, year_bucket := "Yr1",
         organic_growth_pct := 5, projected_usage_dollars := 1050 }] := by
  refine ⟨?_, ?_, ?_, ?_⟩
  · intro s n h hle
    simp only [resolve_result_limit, h]
    rw [min_eq_right (by omega), max_eq_left (by omega)]
  · intro s h
    simp only [resolve_result_limit, h]
  · intro s n h h1 h2
    simp only [resolve_result_limit, h]
    rw [min_eq_right h2, max_eq_right h1]
  · rw [project_eq _ _ (by norm_num) (by norm_num),
      show monthCount ⟨2025, 1, 1⟩ ⟨2025, 1, 1⟩ = 1 from by decide,
      show List.range 1 = [0] from by decide]
    simp only [List.filterMap_cons, List.filterMap_nil]
    rw [if_neg (fun h => absurd h.1
      (by decide : ¬ (1 : Int) < (⟨2025, 1, 1⟩ : Date).day))]
    show [rowAt ⟨2025, 1, 1⟩ (if (1000 : Rat) = 0 then 1 else 1000) [] 0] = _
    rw [if_neg (by norm_num : ¬(1000 : Rat) = 0)]
    have hrf : rateForBucket [] (((0 / 12 : Nat) : Int) + 1) = 1/20 := rfl
    simp only [rowAt, ForecastRow.mk.injEq, List.cons.injEq, and_true]
    refine ⟨by decide, by decide, ?_, ?_⟩
    · rw [hrf, round2_eq_of_eq_intCast 500 (by norm_num)]
      norm_num
    · rw [hrf, show (0 : Nat) / 12 = 0 from rfl, compoundProd,
        round2_eq_of_eq_intCast 105000 (by norm_num)]
      norm_num

theorem C9_clamp_amended_witness : resolve_result_limit "-7" = 1 :=
  C9_clamp_amended.1 "-7" (-7) (by decide) (by norm_num)

end DemandPlan
